import Mathlib

/-
Verification development for the fabric-bridge RPC synchronization service
(`examples/fabric-bridge-app/linux/RpcServer.cpp`).

The RPC handlers (`FabricBridge::AddSynchronizedDevice`,
`FabricBridge::RemoveSynchronizedDevice`, `FabricBridge::ActiveChanged`) and the
startup glue (`RunRpcService`, `InitRpcServer`) are embedded from the source.
The external collaborators that the source consumes but does not define —
the bridged-device registry (`BridgedDeviceManager`), the bridged device record
(`BridgedDevice.h`) and the ecosystem-information cluster server — are modelled
from the specification of their interfaces, as noted on each definition.
State is passed explicitly: each handler takes the system state and returns
either a status together with the response and the new state, or `die` for the
process-terminating `VerifyOrDie` assertions.
-/

set_option autoImplicit false

/-- The status codes of `pw::Status` (the pigweed / absl canonical status
space).  The handlers only ever construct `Ok`, `NotFound` and `Unknown`, but
the full space is modelled so that "no other status is returned" is a real
statement. -/
inductive PwStatus where
  | Ok
  | Cancelled
  | Unknown
  | InvalidArgument
  | DeadlineExceeded
  | NotFound
  | AlreadyExists
  | PermissionDenied
  | ResourceExhausted
  | FailedPrecondition
  | Aborted
  | OutOfRange
  | Unimplemented
  | Internal
  | Unavailable
  | DataLoss
  | Unauthenticated
deriving DecidableEq, Repr

/-- The generated `pw_protobuf_Empty` message: an empty protobuf message is
generated as a struct with a single dummy field.  The handlers receive it as
the output (response) parameter and never write to it. -/
structure ProtobufEmpty where
  dummy_field : Nat := 0
deriving DecidableEq, Repr

/-- The wire-level `chip_rpc_SynchronizedDevice` request message: a 64-bit node
identifier plus ten independently optional fields, each with its own presence
flag (`has_*`), and the optional `is_icd` flag.  Numeric fields are modelled as
`Nat`; a field slot may hold any stray value when its presence flag is unset. -/
structure SynchronizedDevice where
  node_id : Nat := 0
  has_unique_id : Bool := false
  unique_id : String := ""
  has_vendor_name : Bool := false
  vendor_name : String := ""
  has_vendor_id : Bool := false
  vendor_id : Nat := 0
  has_product_name : Bool := false
  product_name : String := ""
  has_product_id : Bool := false
  product_id : Nat := 0
  has_node_label : Bool := false
  node_label : String := ""
  has_hardware_version : Bool := false
  hardware_version : Nat := 0
  has_hardware_version_string : Bool := false
  hardware_version_string : String := ""
  has_software_version : Bool := false
  software_version : Nat := 0
  has_software_version_string : Bool := false
  software_version_string : String := ""
  has_is_icd : Bool := false
  is_icd : Bool := false
deriving DecidableEq, Repr

/-- The wire-level `chip_rpc_KeepActiveChanged` request message. -/
structure KeepActiveChanged where
  node_id : Nat := 0
  promised_active_duration_ms : Nat := 0
deriving DecidableEq, Repr

/-- Modelled from the spec: the internal `BridgedDevice::BridgedAttributes`
record (declared in `BridgedDevice.h`, which only the handlers' source is
available for).  Every field is unconditionally present and carries the type
default (empty string / zero) until set. -/
structure BridgedAttributes where
  uniqueId : String := ""
  vendorName : String := ""
  vendorId : Nat := 0
  productName : String := ""
  productId : Nat := 0
  nodeLabel : String := ""
  hardwareVersion : Nat := 0
  hardwareVersionString : String := ""
  softwareVersion : Nat := 0
  softwareVersionString : String := ""
deriving DecidableEq, Repr

/-- The attribute translation performed inline by
`FabricBridge::AddSynchronizedDevice` (RpcServer.cpp lines 59-109): start from
a default-initialized `BridgedAttributes` and, for each of the ten optional
fields, copy the request value exactly when the corresponding presence flag is
set. -/
def translateAttributes (request : SynchronizedDevice) : BridgedAttributes :=
  let attributes : BridgedAttributes := {}
  let attributes :=
    if request.has_unique_id then { attributes with uniqueId := request.unique_id } else attributes
  let attributes :=
    if request.has_vendor_name then { attributes with vendorName := request.vendor_name } else attributes
  let attributes :=
    if request.has_vendor_id then { attributes with vendorId := request.vendor_id } else attributes
  let attributes :=
    if request.has_product_name then { attributes with productName := request.product_name } else attributes
  let attributes :=
    if request.has_product_id then { attributes with productId := request.product_id } else attributes
  let attributes :=
    if request.has_node_label then { attributes with nodeLabel := request.node_label } else attributes
  let attributes :=
    if request.has_hardware_version then { attributes with hardwareVersion := request.hardware_version } else attributes
  let attributes :=
    if request.has_hardware_version_string then { attributes with hardwareVersionString := request.hardware_version_string } else attributes
  let attributes :=
    if request.has_software_version then { attributes with softwareVersion := request.software_version } else attributes
  let attributes :=
    if request.has_software_version_string then { attributes with softwareVersionString := request.software_version_string } else attributes
  attributes

/-- Modelled from the spec: the `BridgedDevice` object (declared in
`BridgedDevice.h`): keyed by its node identifier, carrying a reachability
flag, the translated attributes, the sleepy-device (`isIcd`) flag, the
endpoint allocated by the registry at add time, the parent endpoint it was
added under, and activity-duration telemetry state (the durations forwarded to
`LogActiveChangeEvent`, oldest first). -/
structure BridgedDevice where
  nodeId : Nat
  reachable : Bool := false
  attributes : BridgedAttributes := {}
  isIcd : Bool := false
  endpointId : Nat := 0
  parentEndpointId : Nat := 0
  activeDurations : List Nat := []
deriving DecidableEq, Repr

/-- Modelled from the spec: `device.LogActiveChangeEvent(durationMs)` — the
activity-telemetry update entry point; it records the promised duration and
returns nothing. -/
def BridgedDevice.LogActiveChangeEvent (device : BridgedDevice) (durationMs : Nat) : BridgedDevice :=
  { device with activeDurations := device.activeDurations ++ [durationMs] }

/-- Modelled from the spec: the external bridged-device registry
(`BridgedDeviceManager`), an abstract store of bridged devices indexed by node
identifier, with a rolling endpoint counter and a capacity limit. -/
structure BridgedDeviceManager where
  devices : List BridgedDevice := []
  nextEndpointId : Nat := 2
  maxDevices : Nat := 16
deriving DecidableEq, Repr

/-- Modelled from the spec: `AddDevice(device, parentGroupId) →
optional<allocated-endpoint>`.  The registry is the sole authority for
node-identifier uniqueness, so an add of an already-present node identifier is
rejected; an add can also fail for capacity exhaustion.  On success the device
is stored with a freshly allocated endpoint under the given parent endpoint
and the allocated endpoint is reported. -/
def BridgedDeviceManager.AddDeviceEndpoint (mgr : BridgedDeviceManager)
    (dev : BridgedDevice) (parentEndpointId : Nat) : Option (Nat × BridgedDeviceManager) :=
  if mgr.devices.any (fun d => d.nodeId == dev.nodeId) then none
  else if mgr.maxDevices ≤ mgr.devices.length then none
  else
    let ep := mgr.nextEndpointId
    some (ep,
      { mgr with
        devices := mgr.devices ++ [{ dev with endpointId := ep, parentEndpointId := parentEndpointId }]
        nextEndpointId := ep + 1 })

/-- Removes the first device with the given node identifier from a device
list, reporting its index; helper for the spec-modelled remove-by-key. -/
def removeFirstByNodeId (nodeId : Nat) : List BridgedDevice → Option (Nat × List BridgedDevice)
  | [] => none
  | d :: rest =>
    if d.nodeId == nodeId then some (0, rest)
    else
      match removeFirstByNodeId nodeId rest with
      | none => none
      | some (i, rest') => some (i + 1, d :: rest')

/-- Modelled from the spec: `RemoveDeviceByKey(nodeId) →
optional<removed-index>`.  Reports `none` (and leaves the registry unchanged)
when no device with that node identifier is present. -/
def BridgedDeviceManager.RemoveDeviceByNodeId (mgr : BridgedDeviceManager)
    (nodeId : Nat) : Option (Nat × BridgedDeviceManager) :=
  match removeFirstByNodeId nodeId mgr.devices with
  | none => none
  | some (i, rest) => some (i, { mgr with devices := rest })

/-- Modelled from the spec: `FindDeviceByKey(nodeId) →
optional<device-reference>`. -/
def BridgedDeviceManager.GetDeviceByNodeId (mgr : BridgedDeviceManager)
    (nodeId : Nat) : Option BridgedDevice :=
  mgr.devices.find? (fun d => d.nodeId == nodeId)

/-- Applies `f` to the first device with the given node identifier, leaving
every other device untouched; this is the state-passing image of mutating the
device behind the reference returned by `FindDeviceByKey`. -/
def updateFirstByNodeId (nodeId : Nat) (f : BridgedDevice → BridgedDevice) :
    List BridgedDevice → List BridgedDevice
  | [] => []
  | d :: rest =>
    if d.nodeId == nodeId then f d :: rest
    else d :: updateFirstByNodeId nodeId f rest

/-- Modelled from the spec: the ecosystem-information cluster server, reduced
to the one consumed operation `AttachCapability(endpointId)`; it tracks which
endpoints carry the capability and can fail fatally on resource exhaustion. -/
structure EcosystemInformationServer where
  endpoints : List Nat := []
  capacity : Nat := 16
deriving DecidableEq, Repr

/-- Modelled from the spec: `AttachCapability(endpointId) → result` — attaches
the ecosystem-information capability to the endpoint, failing (reported as
`none`, i.e. a non-`CHIP_NO_ERROR` result) on resource exhaustion. -/
def EcosystemInformationServer.AddEcosystemInformationClusterToEndpoint
    (srv : EcosystemInformationServer) (endpointId : Nat) : Option EcosystemInformationServer :=
  if srv.capacity ≤ srv.endpoints.length then none
  else some { srv with endpoints := srv.endpoints ++ [endpointId] }

/-- The state shared by the handlers: the bridged-device registry and the
ecosystem-information server. -/
structure SystemState where
  mgr : BridgedDeviceManager := {}
  ecosystem : EcosystemInformationServer := {}
deriving DecidableEq, Repr

/-- The outcome of one RPC handler invocation: either a returned status
together with the (typed, empty-body) response out-parameter and the new
system state, or `die` for a `VerifyOrDie` assertion that halts the process
without returning. -/
inductive RpcResult where
  | ret (status : PwStatus) (response : ProtobufEmpty) (state : SystemState)
  | die
deriving DecidableEq, Repr

/-- The Bridged Device value constructed by
`FabricBridge::AddSynchronizedDevice` before submitting it to the registry
(RpcServer.cpp lines 53-112): keyed by the request's node identifier, marked
reachable, attributes translated from the request, and the sleepy-device flag
set to `request.has_is_icd && request.is_icd`. -/
def FabricBridge.buildDevice (request : SynchronizedDevice) : BridgedDevice :=
  let nodeId := request.node_id
  let device : BridgedDevice := { nodeId := nodeId }
  let device := { device with reachable := true }
  let attributes := translateAttributes request
  let device := { device with attributes := attributes }
  { device with isIcd := request.has_is_icd && request.is_icd }

/-- `FabricBridge::AddSynchronizedDevice` (RpcServer.cpp lines 51-129):
build the device, submit it to the registry under parent endpoint 1, return
`Unknown` if the registry reports no result; otherwise look the device up by
node identifier (`VerifyOrDie` on a miss), attach the ecosystem-information
capability to its endpoint (`VerifyOrDie` on failure), and return `Ok`. -/
def FabricBridge.AddSynchronizedDevice (s : SystemState)
    (request : SynchronizedDevice) (response : ProtobufEmpty) : RpcResult :=
  let nodeId := request.node_id
  let device := FabricBridge.buildDevice request
  match s.mgr.AddDeviceEndpoint device 1 with
  | none => .ret .Unknown response s
  | some (_, mgr') =>
    match mgr'.GetDeviceByNodeId nodeId with
    | none => .die
    | some addedDevice =>
      match s.ecosystem.AddEcosystemInformationClusterToEndpoint addedDevice.endpointId with
      | none => .die
      | some ecosystem' => .ret .Ok response { mgr := mgr', ecosystem := ecosystem' }

/-- `FabricBridge::RemoveSynchronizedDevice` (RpcServer.cpp lines 131-144):
ask the registry to remove the device by node identifier; `NotFound` when the
registry reports no removed entry, `Ok` otherwise. -/
def FabricBridge.RemoveSynchronizedDevice (s : SystemState)
    (request : SynchronizedDevice) (response : ProtobufEmpty) : RpcResult :=
  let nodeId := request.node_id
  match s.mgr.RemoveDeviceByNodeId nodeId with
  | none => .ret .NotFound response s
  | some (_, mgr') => .ret .Ok response { s with mgr := mgr' }

/-- `FabricBridge::ActiveChanged` (RpcServer.cpp lines 146-161): look the
device up by node identifier; `NotFound` when absent, otherwise forward the
request's `promised_active_duration_ms` to the device's
`LogActiveChangeEvent` and return `Ok`. -/
def FabricBridge.ActiveChanged (s : SystemState)
    (request : KeepActiveChanged) (response : ProtobufEmpty) : RpcResult :=
  let nodeId := request.node_id
  match s.mgr.GetDeviceByNodeId nodeId with
  | none => .ret .NotFound response s
  | some _ =>
    .ret .Ok response
      { s with
        mgr := { s.mgr with
          devices := updateFirstByNodeId nodeId
            (fun d => d.LogActiveChangeEvent request.promised_active_duration_ms)
            s.mgr.devices } }

/-- Events of the service thread launched at startup, in program order
(`RunRpcService`, RpcServer.cpp lines 175-180). -/
inductive ServiceEvent where
  | systemServerInit
  | registerFabricBridgeService
  | systemServerStart
deriving DecidableEq, Repr

/-- Events of the startup entry point itself (`InitRpcServer`, RpcServer.cpp
lines 182-187).  `joinThread` is in the event vocabulary so that "the caller
never joins the service thread" is a real statement; the source never emits
it. -/
inductive StartupEvent where
  | setSocketPort (port : Nat)
  | spawnDetachedThread (body : List ServiceEvent)
  | joinThread (body : List ServiceEvent)
deriving DecidableEq, Repr

/-- Whether a startup event observes the service thread's termination. -/
def StartupEvent.isJoin : StartupEvent → Bool
  | .joinThread _ => true
  | _ => false

/-- `RegisterServices` (RpcServer.cpp lines 166-171): registers the fabric
bridge service exactly when the `PW_RPC_FABRIC_BRIDGE_SERVICE` build flag is
enabled; otherwise registration is a no-op. -/
def RegisterServices (fabricBridgeServiceEnabled : Bool) : List ServiceEvent :=
  if fabricBridgeServiceEnabled then [.registerFabricBridgeService] else []

/-- `RunRpcService` (RpcServer.cpp lines 175-180): initialize the system
server, register the services, then start the blocking request-processing
loop. -/
def RunRpcService (fabricBridgeServiceEnabled : Bool) : List ServiceEvent :=
  [.systemServerInit] ++ RegisterServices fabricBridgeServiceEnabled ++ [.systemServerStart]

/-- `InitRpcServer` (RpcServer.cpp lines 182-187): set the transport's socket
port, then launch `RunRpcService` on a detached thread and return. -/
def InitRpcServer (fabricBridgeServiceEnabled : Bool) (rpcServerPort : Nat) : List StartupEvent :=
  [.setSocketPort rpcServerPort,
   .spawnDetachedThread (RunRpcService fabricBridgeServiceEnabled)]

/-- After a successful `AddDeviceEndpoint`, looking the device up by its node
identifier finds exactly the stored copy: the submitted device with the
allocated endpoint and the requested parent endpoint. -/
theorem getDevice_after_add {mgr : BridgedDeviceManager} {dev : BridgedDevice} {p ep : Nat}
    {mgr' : BridgedDeviceManager}
    (h : mgr.AddDeviceEndpoint dev p = some (ep, mgr')) :
    mgr'.GetDeviceByNodeId dev.nodeId =
      some { dev with endpointId := ep, parentEndpointId := p } := by
  unfold BridgedDeviceManager.AddDeviceEndpoint at h
  by_cases h1 : mgr.devices.any (fun d => d.nodeId == dev.nodeId) = true
  · rw [if_pos h1] at h; exact absurd h (by simp)
  · rw [if_neg h1] at h
    by_cases h2 : mgr.maxDevices ≤ mgr.devices.length
    · rw [if_pos h2] at h; exact absurd h (by simp)
    · rw [if_neg h2] at h
      simp only [Option.some.injEq, Prod.mk.injEq] at h
      obtain ⟨hep, hmgr⟩ := h
      subst hmgr
      unfold BridgedDeviceManager.GetDeviceByNodeId
      simp only [List.find?_append]
      have h1' : mgr.devices.any (fun d => d.nodeId == dev.nodeId) = false := by
        simpa using h1
      have hnone : mgr.devices.find? (fun d => d.nodeId == dev.nodeId) = none := by
        rw [List.find?_eq_none]
        intro x hx
        rw [List.any_eq_false] at h1'
        exact h1' x hx
      rw [hnone]
      simp [List.find?_cons, hep]

theorem removeFirst_eq_none_of_no_match {l : List BridgedDevice} {n : Nat}
    (h : ∀ d ∈ l, d.nodeId ≠ n) : removeFirstByNodeId n l = none := by
  induction l with
  | nil => rfl
  | cons d rest ih =>
    have hd : (d.nodeId == n) = false := by simpa using h d (by simp)
    unfold removeFirstByNodeId
    rw [hd]
    simp only [Bool.false_eq_true, if_false]
    rw [ih (fun x hx => h x (List.mem_cons_of_mem _ hx))]

theorem no_match_after_removeFirst {l : List BridgedDevice} {n i : Nat}
    {l' : List BridgedDevice}
    (hnd : (l.map BridgedDevice.nodeId).Nodup)
    (h : removeFirstByNodeId n l = some (i, l')) : ∀ d ∈ l', d.nodeId ≠ n := by
  induction l generalizing i l' with
  | nil => simp [removeFirstByNodeId] at h
  | cons a rest ih =>
    unfold removeFirstByNodeId at h
    simp only [List.map_cons, List.nodup_cons] at hnd
    by_cases ha : (a.nodeId == n) = true
    · rw [ha] at h
      simp only [if_true, Option.some.injEq, Prod.mk.injEq] at h
      obtain ⟨-, hl⟩ := h
      subst hl
      intro d hd hdn
      apply hnd.1
      rw [(by simpa using ha : a.nodeId = n), ← hdn]
      exact List.mem_map_of_mem _ hd
    · rw [(by simpa using ha : (a.nodeId == n) = false)] at h
      simp only [Bool.false_eq_true, if_false] at h
      cases hrec : removeFirstByNodeId n rest with
      | none => rw [hrec] at h; cases h
      | some v =>
        rw [hrec] at h
        obtain ⟨j, rest'⟩ := v
        simp only [Option.some.injEq, Prod.mk.injEq] at h
        obtain ⟨-, hl⟩ := h
        subst hl
        intro d hd
        rcases List.mem_cons.mp hd with rfl | hmem
        · simpa using ha
        · exact ih hnd.2 hrec d hmem

theorem mem_updateFirst_of_ne {l : List BridgedDevice} {n : Nat}
    {f : BridgedDevice → BridgedDevice} {e : BridgedDevice}
    (he : e ∈ l) (hne : e.nodeId ≠ n) : e ∈ updateFirstByNodeId n f l := by
  induction l with
  | nil => cases he
  | cons a rest ih =>
    unfold updateFirstByNodeId
    by_cases ha : (a.nodeId == n) = true
    · rw [if_pos ha]
      rcases List.mem_cons.mp he with rfl | hmem
      · exact absurd (by simpa using ha) hne
      · exact List.mem_cons_of_mem _ hmem
    · rw [if_neg ha]
      rcases List.mem_cons.mp he with rfl | hmem
      · exact List.mem_cons_self _ _
      · exact List.mem_cons_of_mem _ (ih hmem)

theorem find?_updateFirst {l : List BridgedDevice} {n : Nat} {d : BridgedDevice}
    {f : BridgedDevice → BridgedDevice} (hf : ∀ x, (f x).nodeId = x.nodeId)
    (h : l.find? (fun x => x.nodeId == n) = some d) :
    (updateFirstByNodeId n f l).find? (fun x => x.nodeId == n) = some (f d) := by
  induction l with
  | nil => simp at h
  | cons a rest ih =>
    unfold updateFirstByNodeId
    by_cases ha : (fun x : BridgedDevice => x.nodeId == n) a = true
    · rw [List.find?_cons_of_pos (p := fun x : BridgedDevice => x.nodeId == n) _ ha] at h
      injection h with hd
      rw [if_pos ha]
      have hfa : (fun x : BridgedDevice => x.nodeId == n) (f a) = true := by
        show ((f a).nodeId == n) = true
        rw [hf a]; exact ha
      rw [List.find?_cons_of_pos (p := fun x : BridgedDevice => x.nodeId == n) _ hfa, hd]
    · rw [List.find?_cons_of_neg (p := fun x : BridgedDevice => x.nodeId == n) _ ha] at h
      rw [if_neg ha]
      rw [List.find?_cons_of_neg (p := fun x : BridgedDevice => x.nodeId == n) _ ha]
      exact ih h

/-- The response value used in concrete witnesses. -/
def sampleResponse : ProtobufEmpty := {}

/-- A sample request, following end-to-end scenario 1 of the spec: node
identifier `0x1001`, vendor name present and equal to `"Acme"`, every other
optional field absent. -/
def sampleRequest : SynchronizedDevice :=
  { node_id := 0x1001, has_vendor_name := true, vendor_name := "Acme" }

/-- A sample keep-active request for the same node identifier. -/
def sampleActiveRequest : KeepActiveChanged :=
  { node_id := 0x1001, promised_active_duration_ms := 5000 }

/-- The initial system state: empty registry, empty ecosystem server. -/
def emptyState : SystemState := {}

/-- The copy of the sample device as the registry stores it after a
successful add on the empty state: endpoint 2, parent endpoint 1. -/
def storedSampleDevice : BridgedDevice :=
  { FabricBridge.buildDevice sampleRequest with endpointId := 2, parentEndpointId := 1 }

/-- The system state after a successful `AddSynchronizedDevice` of
`sampleRequest` on `emptyState`: the device is stored with endpoint 2 under
parent endpoint 1, and the ecosystem capability is attached to endpoint 2. -/
def addedState : SystemState :=
  { mgr := { devices := [storedSampleDevice], nextEndpointId := 3 },
    ecosystem := { endpoints := [2] } }

/-- The system state after removing the sample device from `addedState`:
the registry is empty again, but the endpoint counter and the attached
ecosystem capability keep their post-add values. -/
def removedState : SystemState :=
  { mgr := { devices := [], nextEndpointId := 3 },
    ecosystem := { endpoints := [2] } }

/-- A zero-capacity registry on which every add fails. -/
def fullState : SystemState := { mgr := { maxDevices := 0 } }

/-- Holds when an RPC outcome's response out-parameter equals the value that
was passed in (the fatal `die` outcome returns nothing at all). -/
def respondsWith (res : RpcResult) (r : ProtobufEmpty) : Prop :=
  match res with
  | .ret _ r' _ => r' = r
  | .die => True

/-- C1: each RPC operation returns only statuses from its fixed set —
`AddSynchronizedDevice` returns `Ok` or `Unknown`, `RemoveSynchronizedDevice`
returns `Ok` or `NotFound`, `ActiveChanged` returns `Ok` or `NotFound` — and
no other `pw::Status` value is ever returned to the caller. -/
theorem rpc_status_sets (s : SystemState) (req : SynchronizedDevice)
    (reqA : KeepActiveChanged) (r : ProtobufEmpty) :
    (∀ st r' s', FabricBridge.AddSynchronizedDevice s req r = .ret st r' s' →
        st = .Ok ∨ st = .Unknown) ∧
    (∀ st r' s', FabricBridge.RemoveSynchronizedDevice s req r = .ret st r' s' →
        st = .Ok ∨ st = .NotFound) ∧
    (∀ st r' s', FabricBridge.ActiveChanged s reqA r = .ret st r' s' →
        st = .Ok ∨ st = .NotFound) := by
  refine ⟨?_, ?_, ?_⟩ <;>
    simp only [FabricBridge.AddSynchronizedDevice, FabricBridge.RemoveSynchronizedDevice,
      FabricBridge.ActiveChanged]
  all_goals repeat' split
  all_goals intro st r' s' h
  all_goals first | (cases h; simp) | exact absurd h (by simp)

/-- Witness for `rpc_status_sets`: removing from the empty registry returns
`NotFound`, which lies in the allowed set. -/
theorem rpc_status_sets_witness :
    (FabricBridge.RemoveSynchronizedDevice emptyState sampleRequest sampleResponse =
        .ret .NotFound sampleResponse emptyState) ∧
    (PwStatus.NotFound = .Ok ∨ PwStatus.NotFound = .NotFound) :=
  ⟨rfl,
    (rpc_status_sets emptyState sampleRequest sampleActiveRequest sampleResponse).2.1
      .NotFound sampleResponse emptyState rfl⟩

/-- C2: for every descriptor and each of the ten optional fields, the
translated Bridged Attributes field equals the descriptor's value when the
presence flag is set, and the record type's default when it is unset,
regardless of the value left in the descriptor's field slot. -/
theorem translate_presence_semantics (D : SynchronizedDevice) :
    (translateAttributes D).uniqueId =
      (if D.has_unique_id then D.unique_id else ({} : BridgedAttributes).uniqueId) ∧
    (translateAttributes D).vendorName =
      (if D.has_vendor_name then D.vendor_name else ({} : BridgedAttributes).vendorName) ∧
    (translateAttributes D).vendorId =
      (if D.has_vendor_id then D.vendor_id else ({} : BridgedAttributes).vendorId) ∧
    (translateAttributes D).productName =
      (if D.has_product_name then D.product_name else ({} : BridgedAttributes).productName) ∧
    (translateAttributes D).productId =
      (if D.has_product_id then D.product_id else ({} : BridgedAttributes).productId) ∧
    (translateAttributes D).nodeLabel =
      (if D.has_node_label then D.node_label else ({} : BridgedAttributes).nodeLabel) ∧
    (translateAttributes D).hardwareVersion =
      (if D.has_hardware_version then D.hardware_version else ({} : BridgedAttributes).hardwareVersion) ∧
    (translateAttributes D).hardwareVersionString =
      (if D.has_hardware_version_string then D.hardware_version_string else ({} : BridgedAttributes).hardwareVersionString) ∧
    (translateAttributes D).softwareVersion =
      (if D.has_software_version then D.software_version else ({} : BridgedAttributes).softwareVersion) ∧
    (translateAttributes D).softwareVersionString =
      (if D.has_software_version_string then D.software_version_string else ({} : BridgedAttributes).softwareVersionString) := by
  refine ⟨?_, ?_, ?_, ?_, ?_, ?_, ?_, ?_, ?_, ?_⟩ <;>
    (simp only [translateAttributes,
      apply_ite BridgedAttributes.uniqueId, apply_ite BridgedAttributes.vendorName,
      apply_ite BridgedAttributes.vendorId, apply_ite BridgedAttributes.productName,
      apply_ite BridgedAttributes.productId, apply_ite BridgedAttributes.nodeLabel,
      apply_ite BridgedAttributes.hardwareVersion, apply_ite BridgedAttributes.hardwareVersionString,
      apply_ite BridgedAttributes.softwareVersion, apply_ite BridgedAttributes.softwareVersionString]
     simp)

/-- C8: attribute translation is deterministic — two translations of the same
descriptor agree field-for-field, and as whole records; the translation is a
pure function of the descriptor alone, so the device built by the handler
carries exactly it. -/
theorem translate_deterministic (D : SynchronizedDevice) :
    (translateAttributes D).uniqueId = (translateAttributes D).uniqueId ∧
    (translateAttributes D).vendorName = (translateAttributes D).vendorName ∧
    (translateAttributes D).vendorId = (translateAttributes D).vendorId ∧
    (translateAttributes D).productName = (translateAttributes D).productName ∧
    (translateAttributes D).productId = (translateAttributes D).productId ∧
    (translateAttributes D).nodeLabel = (translateAttributes D).nodeLabel ∧
    (translateAttributes D).hardwareVersion = (translateAttributes D).hardwareVersion ∧
    (translateAttributes D).hardwareVersionString = (translateAttributes D).hardwareVersionString ∧
    (translateAttributes D).softwareVersion = (translateAttributes D).softwareVersion ∧
    (translateAttributes D).softwareVersionString = (translateAttributes D).softwareVersionString ∧
    translateAttributes D = translateAttributes D ∧
    (FabricBridge.buildDevice D).attributes = translateAttributes D :=
  ⟨rfl, rfl, rfl, rfl, rfl, rfl, rfl, rfl, rfl, rfl, rfl, rfl⟩

/-- C3: when the registry's add reports no result, `AddSynchronizedDevice`
returns the generic `Unknown` status with the entire system state — registry
and ecosystem server alike — unchanged: nothing is retried and the
capability-attachment and post-add-lookup path is never reached. -/
theorem add_unknown_on_registry_failure (s : SystemState) (req : SynchronizedDevice)
    (r : ProtobufEmpty)
    (h : s.mgr.AddDeviceEndpoint (FabricBridge.buildDevice req) 1 = none) :
    FabricBridge.AddSynchronizedDevice s req r = .ret .Unknown r s := by
  simp only [FabricBridge.AddSynchronizedDevice, h]

/-- Witness for `add_unknown_on_registry_failure`: on the zero-capacity
registry the add fails and the handler returns `Unknown` with the state
untouched. -/
theorem add_unknown_on_registry_failure_witness :
    (fullState.mgr.AddDeviceEndpoint (FabricBridge.buildDevice sampleRequest) 1 = none) ∧
    FabricBridge.AddSynchronizedDevice fullState sampleRequest sampleResponse =
      .ret .Unknown sampleResponse fullState :=
  ⟨rfl, add_unknown_on_registry_failure fullState sampleRequest sampleResponse rfl⟩

/-- C4: after a successful registry add, the post-add lookup by node
identifier always finds the just-added device, so the lookup-miss assertion
cannot fire; if capability attachment fails the handler halts (`die`) rather
than returning a status, and if it succeeds the handler returns `Ok`. -/
theorem add_fatal_and_ok_paths (s : SystemState) (req : SynchronizedDevice)
    (r : ProtobufEmpty) (ep : Nat) (mgr' : BridgedDeviceManager)
    (h : s.mgr.AddDeviceEndpoint (FabricBridge.buildDevice req) 1 = some (ep, mgr')) :
    mgr'.GetDeviceByNodeId req.node_id =
      some { FabricBridge.buildDevice req with endpointId := ep, parentEndpointId := 1 } ∧
    (s.ecosystem.AddEcosystemInformationClusterToEndpoint ep = none →
      FabricBridge.AddSynchronizedDevice s req r = .die) ∧
    (∀ eco', s.ecosystem.AddEcosystemInformationClusterToEndpoint ep = some eco' →
      FabricBridge.AddSynchronizedDevice s req r =
        .ret .Ok r { mgr := mgr', ecosystem := eco' }) := by
  have hfind := getDevice_after_add h
  have hnode : (FabricBridge.buildDevice req).nodeId = req.node_id := rfl
  rw [hnode] at hfind
  refine ⟨hfind, ?_, ?_⟩
  · intro hecoN
    simp only [FabricBridge.AddSynchronizedDevice, h, hfind, hecoN]
  · intro eco' hecoS
    simp only [FabricBridge.AddSynchronizedDevice, h, hfind, hecoS]

/-- Witness for `add_fatal_and_ok_paths`: adding the sample request to the
empty state succeeds, the post-add lookup finds the stored device, and the
successful attachment path returns `Ok` with the added state. -/
theorem add_fatal_and_ok_paths_witness :
    (emptyState.mgr.AddDeviceEndpoint (FabricBridge.buildDevice sampleRequest) 1 =
        some (2, addedState.mgr)) ∧
    (emptyState.ecosystem.AddEcosystemInformationClusterToEndpoint 2 =
        some addedState.ecosystem) ∧
    FabricBridge.AddSynchronizedDevice emptyState sampleRequest sampleResponse =
      .ret .Ok sampleResponse { mgr := addedState.mgr, ecosystem := addedState.ecosystem } :=
  ⟨rfl, rfl,
    (add_fatal_and_ok_paths emptyState sampleRequest sampleResponse 2 addedState.mgr
        rfl).2.2 addedState.ecosystem rfl⟩

/-- C5: `RemoveSynchronizedDevice` returns `NotFound` exactly when the
registry's remove-by-key reports no removed entry (the state then being
unchanged) and `Ok` otherwise; removing a never-added node identifier
returns `NotFound` with the registry unchanged, and — node identifiers being
unique in the registry — a second remove of the same identifier right after
a successful remove returns `NotFound`. -/
theorem remove_status_semantics (s : SystemState) (req : SynchronizedDevice)
    (r : ProtobufEmpty) :
    (s.mgr.RemoveDeviceByNodeId req.node_id = none →
      FabricBridge.RemoveSynchronizedDevice s req r = .ret .NotFound r s) ∧
    (∀ i mgr', s.mgr.RemoveDeviceByNodeId req.node_id = some (i, mgr') →
      FabricBridge.RemoveSynchronizedDevice s req r = .ret .Ok r { s with mgr := mgr' }) ∧
    ((∀ d ∈ s.mgr.devices, d.nodeId ≠ req.node_id) →
      FabricBridge.RemoveSynchronizedDevice s req r = .ret .NotFound r s) ∧
    ((s.mgr.devices.map BridgedDevice.nodeId).Nodup →
      ∀ s', FabricBridge.RemoveSynchronizedDevice s req r = .ret .Ok r s' →
        FabricBridge.RemoveSynchronizedDevice s' req r = .ret .NotFound r s') := by
  refine ⟨?_, ?_, ?_, ?_⟩
  · intro h
    simp only [FabricBridge.RemoveSynchronizedDevice, h]
  · intro i mgr' h
    simp only [FabricBridge.RemoveSynchronizedDevice, h]
  · intro h
    have hrem : s.mgr.RemoveDeviceByNodeId req.node_id = none := by
      unfold BridgedDeviceManager.RemoveDeviceByNodeId
      rw [removeFirst_eq_none_of_no_match h]
    simp only [FabricBridge.RemoveSynchronizedDevice, hrem]
  · intro hnd s' hok
    cases hrem : s.mgr.RemoveDeviceByNodeId req.node_id with
    | none =>
      have : FabricBridge.RemoveSynchronizedDevice s req r = .ret .NotFound r s := by
        simp only [FabricBridge.RemoveSynchronizedDevice, hrem]
      rw [this] at hok
      exact absurd hok (by simp)
    | some v =>
      obtain ⟨i, mgr'⟩ := v
      have : FabricBridge.RemoveSynchronizedDevice s req r = .ret .Ok r { s with mgr := mgr' } := by
        simp only [FabricBridge.RemoveSynchronizedDevice, hrem]
      rw [this] at hok
      have hs' : s' = { s with mgr := mgr' } := by
        injection hok with h1 h2 h3
        exact h3.symm
      subst hs'
      unfold BridgedDeviceManager.RemoveDeviceByNodeId at hrem
      cases hrf : removeFirstByNodeId req.node_id s.mgr.devices with
      | none => rw [hrf] at hrem; cases hrem
      | some w =>
        obtain ⟨j, rest⟩ := w
        rw [hrf] at hrem
        simp only [Option.some.injEq, Prod.mk.injEq] at hrem
        obtain ⟨-, hmgr'⟩ := hrem
        have hno : ∀ d ∈ rest, d.nodeId ≠ req.node_id := no_match_after_removeFirst hnd hrf
        have hrem' : ({ s with mgr := mgr' } : SystemState).mgr.RemoveDeviceByNodeId req.node_id = none := by
          unfold BridgedDeviceManager.RemoveDeviceByNodeId
          rw [← hmgr']
          rw [removeFirst_eq_none_of_no_match hno]
        simp only [FabricBridge.RemoveSynchronizedDevice, hrem']

/-- Witness for `remove_status_semantics`: end-to-end scenario 2 — after the
sample device has been added, the first remove returns `Ok` and the second
remove of the same node identifier returns `NotFound`. -/
theorem remove_status_semantics_witness :
    ((addedState.mgr.devices.map BridgedDevice.nodeId).Nodup) ∧
    (FabricBridge.RemoveSynchronizedDevice addedState sampleRequest sampleResponse =
        .ret .Ok sampleResponse removedState) ∧
    FabricBridge.RemoveSynchronizedDevice removedState sampleRequest sampleResponse =
      .ret .NotFound sampleResponse removedState :=
  ⟨by decide, rfl,
    (remove_status_semantics addedState sampleRequest sampleResponse).2.2.2
      (by decide) removedState rfl⟩

/-- C6: `ActiveChanged` forwards exactly the request's promised active
duration to the found device's `LogActiveChangeEvent` entry point and
returns `Ok`, leaving the ecosystem server and every other device untouched;
when no device matches the node identifier it returns `NotFound` and mutates
nothing. -/
theorem active_changed_semantics (s : SystemState) (req : KeepActiveChanged)
    (r : ProtobufEmpty) :
    (s.mgr.GetDeviceByNodeId req.node_id = none →
      FabricBridge.ActiveChanged s req r = .ret .NotFound r s) ∧
    (∀ d, s.mgr.GetDeviceByNodeId req.node_id = some d →
      ∃ s', FabricBridge.ActiveChanged s req r = .ret .Ok r s' ∧
        s'.ecosystem = s.ecosystem ∧
        s'.mgr.GetDeviceByNodeId req.node_id =
          some (d.LogActiveChangeEvent req.promised_active_duration_ms) ∧
        (d.LogActiveChangeEvent req.promised_active_duration_ms).activeDurations =
          d.activeDurations ++ [req.promised_active_duration_ms] ∧
        (∀ e ∈ s.mgr.devices, e.nodeId ≠ req.node_id → e ∈ s'.mgr.devices)) := by
  constructor
  · intro h
    simp only [FabricBridge.ActiveChanged, h]
  · intro d hd
    refine
      ⟨{ s with
         mgr := { s.mgr with
                  devices :=
                    updateFirstByNodeId req.node_id
                      (fun x => x.LogActiveChangeEvent req.promised_active_duration_ms)
                      s.mgr.devices } },
       ?_, rfl, ?_, rfl, ?_⟩
    · simp only [FabricBridge.ActiveChanged, hd]
    · exact find?_updateFirst (fun x => rfl) hd
    · intro e he hne
      exact mem_updateFirst_of_ne he hne

/-- Witness for `active_changed_semantics`: end-to-end, keeping the sample
device active for 5000 ms logs exactly that duration on it. -/
theorem active_changed_semantics_witness :
    (addedState.mgr.GetDeviceByNodeId sampleActiveRequest.node_id = some storedSampleDevice) ∧
    (∃ s', FabricBridge.ActiveChanged addedState sampleActiveRequest sampleResponse =
        .ret .Ok sampleResponse s' ∧
      s'.ecosystem = addedState.ecosystem ∧
      s'.mgr.GetDeviceByNodeId sampleActiveRequest.node_id =
        some (storedSampleDevice.LogActiveChangeEvent
          sampleActiveRequest.promised_active_duration_ms) ∧
      (storedSampleDevice.LogActiveChangeEvent
          sampleActiveRequest.promised_active_duration_ms).activeDurations =
        storedSampleDevice.activeDurations ++ [sampleActiveRequest.promised_active_duration_ms] ∧
      (∀ e ∈ addedState.mgr.devices, e.nodeId ≠ sampleActiveRequest.node_id →
        e ∈ s'.mgr.devices)) :=
  ⟨rfl,
    (active_changed_semantics addedState sampleActiveRequest sampleResponse).2
      storedSampleDevice rfl⟩

/-- C7: the device `AddSynchronizedDevice` constructs is keyed by the
request's node identifier, marked reachable, carries the translated
attributes, and has its sleepy-device flag set exactly when `has_is_icd` and
`is_icd` are both set; any successful add stores it in the registry under
the constant parent endpoint identifier 1. -/
theorem add_builds_device_under_parent_one (req : SynchronizedDevice) :
    (FabricBridge.buildDevice req).nodeId = req.node_id ∧
    (FabricBridge.buildDevice req).reachable = true ∧
    (FabricBridge.buildDevice req).isIcd = (req.has_is_icd && req.is_icd) ∧
    (FabricBridge.buildDevice req).attributes = translateAttributes req ∧
    (∀ s r s', FabricBridge.AddSynchronizedDevice s req r = .ret .Ok r s' →
      ∃ ep, s'.mgr.GetDeviceByNodeId req.node_id =
        some { FabricBridge.buildDevice req with endpointId := ep, parentEndpointId := 1 }) := by
  refine ⟨rfl, rfl, rfl, rfl, ?_⟩
  intro s r s' hok
  cases hadd : s.mgr.AddDeviceEndpoint (FabricBridge.buildDevice req) 1 with
  | none =>
    have : FabricBridge.AddSynchronizedDevice s req r = .ret .Unknown r s := by
      simp only [FabricBridge.AddSynchronizedDevice, hadd]
    rw [this] at hok
    exact absurd hok (by simp)
  | some v =>
    obtain ⟨ep, mgr'⟩ := v
    have hfind := getDevice_after_add hadd
    have hnode : (FabricBridge.buildDevice req).nodeId = req.node_id := rfl
    rw [hnode] at hfind
    cases heco : s.ecosystem.AddEcosystemInformationClusterToEndpoint ep with
    | none =>
      have : FabricBridge.AddSynchronizedDevice s req r = .die := by
        simp only [FabricBridge.AddSynchronizedDevice, hadd, hfind, heco]
      rw [this] at hok
      cases hok
    | some eco' =>
      have : FabricBridge.AddSynchronizedDevice s req r =
          .ret .Ok r { mgr := mgr', ecosystem := eco' } := by
        simp only [FabricBridge.AddSynchronizedDevice, hadd, hfind, heco]
      rw [this] at hok
      have hs' : s' = { mgr := mgr', ecosystem := eco' } := by
        injection hok with h1 h2 h3
        exact h3.symm
      subst hs'
      exact ⟨ep, hfind⟩

/-- Witness for `add_builds_device_under_parent_one`: the successful sample
add stores the sample device under parent endpoint 1 with endpoint 2. -/
theorem add_builds_device_under_parent_one_witness :
    (FabricBridge.AddSynchronizedDevice emptyState sampleRequest sampleResponse =
        .ret .Ok sampleResponse addedState) ∧
    (∃ ep, addedState.mgr.GetDeviceByNodeId sampleRequest.node_id =
        some { FabricBridge.buildDevice sampleRequest with
               endpointId := ep, parentEndpointId := 1 }) :=
  ⟨rfl,
    (add_builds_device_under_parent_one sampleRequest).2.2.2.2
      emptyState sampleResponse addedState rfl⟩

/-- C9: startup applies its single configuration option — the transport's
socket port — strictly before launching the request-processing loop, the
loop is launched on a detached thread as startup's final action, and startup
never joins or otherwise observes the loop thread; the service thread
initializes the transport, registers the services and then starts the
blocking loop. -/
theorem init_rpc_server_startup (enabled : Bool) (port : Nat) :
    InitRpcServer enabled port =
      [.setSocketPort port, .spawnDetachedThread (RunRpcService enabled)] ∧
    ((InitRpcServer enabled port).all (fun e => !e.isJoin)) = true ∧
    (InitRpcServer enabled port).getLast? =
      some (.spawnDetachedThread (RunRpcService enabled)) ∧
    (RunRpcService enabled).head? = some .systemServerInit ∧
    (RunRpcService enabled).getLast? = some .systemServerStart := by
  cases enabled <;> exact ⟨rfl, rfl, rfl, rfl, rfl⟩

/-- C10: no handler ever writes the typed empty response out-parameter — on
every returning path of the three operations the response out-value equals
the value passed in. -/
theorem handlers_preserve_response (s : SystemState) (req : SynchronizedDevice)
    (reqA : KeepActiveChanged) (r : ProtobufEmpty) :
    respondsWith (FabricBridge.AddSynchronizedDevice s req r) r ∧
    respondsWith (FabricBridge.RemoveSynchronizedDevice s req r) r ∧
    respondsWith (FabricBridge.ActiveChanged s reqA r) r := by
  refine ⟨?_, ?_, ?_⟩ <;>
    simp only [FabricBridge.AddSynchronizedDevice, FabricBridge.RemoveSynchronizedDevice,
      FabricBridge.ActiveChanged]
  all_goals repeat' split
  all_goals simp [respondsWith]
